import Mathlib

/-!
Shallow embedding of the GlastarJS rendering engine (the stateful class in
the repository source: constructor, updateConfig, resize, drawAvatar and its
helpers, updateStateTransition, easeInOutCubic, render, start/stop/dispose).

Modelling conventions:
* JS numbers are modelled as rationals; machine floating point is out of
  scope of the verified properties (they concern exact branch structure,
  config merging and algebraic bounds).
* JS truthiness on numbers resp. strings is modelled by jsOrNum / jsOrStr
  (0 and the empty string are the falsy values of those types).
* An absent field of a partial config object is an Option that is none;
  nullish coalescing is Option.getD, while the logical-or defaulting of the
  source additionally replaces falsy present values.
* Math.pow(x, 0.3) (the avatar fade curve) is real-valued and is kept as an
  explicit function parameter powCurve of the drawing pipeline; no verified
  claim depends on its values.
* The geometry of the thinking-state border (arc coordinates involving
  Math.PI and float modulus) is abstracted to a single opaque canvas
  primitive; no verified claim depends on that geometry.  All state-flag
  effects of the drawing routines are modelled exactly.
-/

namespace Glasatar

/-- The eight glass texture identifiers of the source TEXTURE_MAP. -/
inductive TextureType
  | arctic | cathedral | autumn | flemish | ripple | reeded | vintage | forest
deriving DecidableEq

/-- Avatar animation states. -/
inductive AvatarState
  | speaking | listening | thinking
deriving DecidableEq

/-- Avatar shapes of the source (the union type has exactly these two). -/
inductive AvatarShape
  | square | circle
deriving DecidableEq

/-- Background styles. -/
inductive BackgroundType
  | color | radialGradient | linearGradient | image
deriving DecidableEq

/-- The nested backgroundGradient object of the resolved config. -/
structure BackgroundGradient where
  centerColor : String
  edgeColor : String
  angle : ℚ
deriving DecidableEq

/-- The fully resolved configuration stored in this.config (the inline field
type of the class; note it has no listening-pulse fields even though the
public GlasatarConfig interface documents them). -/
structure GlasatarConfig where
  width : ℚ
  height : ℚ
  texture : TextureType
  glassOpacity : ℚ
  refractionStrength : ℚ
  blurAmount : ℚ
  fps : ℚ
  avatarColor : String
  avatarSize : ℚ
  avatarSensitivity : ℚ
  avatarExpansion : ℚ
  avatarSmoothing : ℚ
  avatarFadeWithAudio : Bool
  avatarState : AvatarState
  avatarShape : AvatarShape
  backgroundColor : String
  backgroundType : BackgroundType
  backgroundGradient : BackgroundGradient
  backgroundImage : Option String
  backgroundRotation : Bool
  backgroundRotationSpeed : ℚ
  backgroundScale : ℚ
deriving DecidableEq

/-- A partial backgroundGradient object as it exists at runtime (each key may
be absent). -/
structure GradientPatch where
  centerColor : Option String := none
  edgeColor : Option String := none
  angle : Option ℚ := none
deriving DecidableEq

/-- A Partial of GlasatarConfig as the constructor and updateConfig receive
it.  backgroundImage distinguishes a present-but-undefined key (used to clear
the image) from an absent key, matching the source checks. -/
structure ConfigPatch where
  width : Option ℚ := none
  height : Option ℚ := none
  texture : Option TextureType := none
  glassOpacity : Option ℚ := none
  refractionStrength : Option ℚ := none
  blurAmount : Option ℚ := none
  fps : Option ℚ := none
  avatarColor : Option String := none
  avatarSize : Option ℚ := none
  avatarSensitivity : Option ℚ := none
  avatarExpansion : Option ℚ := none
  avatarSmoothing : Option ℚ := none
  avatarFadeWithAudio : Option Bool := none
  avatarState : Option AvatarState := none
  avatarShape : Option AvatarShape := none
  backgroundColor : Option String := none
  backgroundType : Option BackgroundType := none
  backgroundGradient : Option GradientPatch := none
  backgroundImage : Option (Option String) := none
  backgroundRotation : Option Bool := none
  backgroundRotationSpeed : Option ℚ := none
  backgroundScale : Option ℚ := none
deriving DecidableEq

/-- The empty patch ({} in the source). -/
def emptyPatch : ConfigPatch := {}

/-- JS defaulting v || d for an optional number: an absent or falsy (zero)
value is replaced by the default. -/
def jsOrNum (v : Option ℚ) (d : ℚ) : ℚ :=
  match v with
  | none => d
  | some x => if x = 0 then d else x

/-- JS defaulting v || d for an optional string: an absent or falsy (empty)
value is replaced by the default. -/
def jsOrStr (v : Option String) (d : String) : String :=
  match v with
  | none => d
  | some x => if x = "" then d else x

/-- The constructor's defaults resolution (source constructor, config object
literal), including the shape-forced-square width/height and the
rotation-speed forcing. -/
def resolveConfig (p : ConfigPatch) : GlasatarConfig :=
  let width := jsOrNum p.width 800
  let height :=
    match p.avatarShape with
    | some _ => width
    | none => jsOrNum p.height 600
  { width := width
    height := height
    texture := p.texture.getD .arctic
    glassOpacity := jsOrNum p.glassOpacity (95/100)
    refractionStrength := jsOrNum p.refractionStrength 1
    blurAmount := jsOrNum p.blurAmount 3
    fps := jsOrNum p.fps 60
    avatarColor := jsOrStr p.avatarColor "#4A90E2"
    avatarSize := jsOrNum p.avatarSize 80
    avatarSensitivity := jsOrNum p.avatarSensitivity 1
    avatarExpansion := jsOrNum p.avatarExpansion 2
    avatarSmoothing := jsOrNum p.avatarSmoothing (1/4)
    avatarFadeWithAudio := p.avatarFadeWithAudio.getD false
    avatarState := p.avatarState.getD .speaking
    avatarShape := p.avatarShape.getD .square
    backgroundColor := jsOrStr p.backgroundColor "#000000"
    backgroundType := p.backgroundType.getD .color
    backgroundGradient :=
      { centerColor := jsOrStr (p.backgroundGradient.bind (·.centerColor)) "#4A90E2"
        edgeColor := jsOrStr (p.backgroundGradient.bind (·.edgeColor)) "#1a1a2e"
        angle := (p.backgroundGradient.bind (·.angle)).getD 45 }
    backgroundImage :=
      match p.backgroundImage with
      | some v => v
      | none => none
    backgroundRotation := p.backgroundRotation.getD true
    backgroundRotationSpeed :=
      if p.backgroundRotation = some false then 0
      else p.backgroundRotationSpeed.getD 10
    backgroundScale := jsOrNum p.backgroundScale 1 }

/-- The spread merge of updateConfig: every present patch key overwrites the
stored field verbatim, except backgroundGradient which merges key-by-key
(colors with JS logical-or, angle with nullish coalescing). -/
def mergeConfig (c : GlasatarConfig) (p : ConfigPatch) : GlasatarConfig :=
  { width := p.width.getD c.width
    height := p.height.getD c.height
    texture := p.texture.getD c.texture
    glassOpacity := p.glassOpacity.getD c.glassOpacity
    refractionStrength := p.refractionStrength.getD c.refractionStrength
    blurAmount := p.blurAmount.getD c.blurAmount
    fps := p.fps.getD c.fps
    avatarColor := p.avatarColor.getD c.avatarColor
    avatarSize := p.avatarSize.getD c.avatarSize
    avatarSensitivity := p.avatarSensitivity.getD c.avatarSensitivity
    avatarExpansion := p.avatarExpansion.getD c.avatarExpansion
    avatarSmoothing := p.avatarSmoothing.getD c.avatarSmoothing
    avatarFadeWithAudio := p.avatarFadeWithAudio.getD c.avatarFadeWithAudio
    avatarState := p.avatarState.getD c.avatarState
    avatarShape := p.avatarShape.getD c.avatarShape
    backgroundColor := p.backgroundColor.getD c.backgroundColor
    backgroundType := p.backgroundType.getD c.backgroundType
    backgroundGradient :=
      match p.backgroundGradient with
      | some g =>
          { centerColor := jsOrStr g.centerColor c.backgroundGradient.centerColor
            edgeColor := jsOrStr g.edgeColor c.backgroundGradient.edgeColor
            angle := g.angle.getD c.backgroundGradient.angle }
      | none => c.backgroundGradient
    backgroundImage :=
      match p.backgroundImage with
      | some v => v
      | none => c.backgroundImage
    backgroundRotation := p.backgroundRotation.getD c.backgroundRotation
    backgroundRotationSpeed := p.backgroundRotationSpeed.getD c.backgroundRotationSpeed
    backgroundScale := p.backgroundScale.getD c.backgroundScale }

/-- The JSON.stringify key computed in drawAvatar over the
background-affecting config fields plus the avatar state; two configs produce
the same JSON string exactly when these eight fields agree, so the signature
is modelled as the tuple itself. -/
structure BgSignature where
  type : BackgroundType
  color : String
  gradient : BackgroundGradient
  image : Option String
  rotation : Bool
  speed : ℚ
  scale : ℚ
  state : AvatarState
deriving DecidableEq

/-- The signature of a config (the object literal passed to JSON.stringify). -/
def bgSignature (c : GlasatarConfig) : BgSignature :=
  { type := c.backgroundType
    color := c.backgroundColor
    gradient := c.backgroundGradient
    image := c.backgroundImage
    rotation := c.backgroundRotation
    speed := c.backgroundRotationSpeed
    scale := c.backgroundScale
    state := c.avatarState }

/-- The mutable engine state: the class fields of GlastarJS.  GPU handles are
modelled as Option Unit (some = allocated), the audio analyzer as a Bool,
the last background signature as Option BgSignature (none models the initial
empty string, which never equals a produced JSON string). -/
structure EngineState where
  config : GlasatarConfig
  program : Option Unit
  audioAnalyzer : Bool
  animationId : Option Unit
  isDisposed : Bool
  positionBuffer : Option Unit
  texCoordBuffer : Option Unit
  backgroundTexture : Option Unit
  backgroundImageElement : Option Unit
  canvasWidth : ℚ
  canvasHeight : ℚ
  bgCanvasWidth : ℚ
  bgCanvasHeight : ℚ
  smoothedAudioLevel : ℚ
  backgroundDirty : Bool
  lastBackgroundConfig : Option BgSignature
  textureNeedsUpdate : Bool
  lastAvatarSize : ℚ
  thinkingAnimationTime : ℚ
  currentState : AvatarState
  targetState : AvatarState
  stateTransitionProgress : ℚ
  stateTransitionDuration : ℚ
  stateTransitionStartTime : ℚ
deriving DecidableEq

/-- resize(width, height?): shape-forced-square override (the resolved
avatarShape is always circle or square), canvas + composition canvas +
viewport + stored dimensions update, background marked dirty.  The absent or
falsy height falls back to width (height || width in the source). -/
def resize (w : ℚ) (h : Option ℚ) (s : EngineState) : EngineState :=
  let effectiveHeight :=
    if s.config.avatarShape = .circle ∨ s.config.avatarShape = .square then w
    else
      match h with
      | none => w
      | some hv => if hv = 0 then w else hv
  { s with
    canvasWidth := w
    canvasHeight := effectiveHeight
    bgCanvasWidth := w
    bgCanvasHeight := effectiveHeight
    config := { s.config with width := w, height := effectiveHeight }
    backgroundDirty := true }

/-- loadBackgroundImage: with a falsy stored URL the current element is
detached and cleared; otherwise the previous element is detached and a fresh
one starts loading.  Callback wiring is outside the state model; the element
handle is tracked. -/
def loadBackgroundImage (s : EngineState) : EngineState :=
  match s.config.backgroundImage with
  | none => { s with backgroundImageElement := none }
  | some url =>
      if url = "" then { s with backgroundImageElement := none }
      else { s with backgroundImageElement := some () }

/-- The background-affecting keys whose presence in a patch marks the
background dirty (the backgroundKeys array of updateConfig). -/
def hasBackgroundKey (p : ConfigPatch) : Bool :=
  p.backgroundColor.isSome || p.backgroundType.isSome ||
  p.backgroundGradient.isSome || p.backgroundImage.isSome ||
  p.backgroundRotation.isSome || p.backgroundRotationSpeed.isSome ||
  p.backgroundScale.isSome

/-- updateConfig: spread merge with the gradient special case, dirty marking
for background keys, resize on width/height presence, image (re)load when the
patch carries a non-undefined backgroundImage value. -/
def updateConfig (p : ConfigPatch) (s : EngineState) : EngineState :=
  let s1 := { s with config := mergeConfig s.config p }
  let s2 := if hasBackgroundKey p then { s1 with backgroundDirty := true } else s1
  let s3 :=
    if p.width.isSome ∨ p.height.isSome then
      { resize s2.config.width (some s2.config.height) s2 with backgroundDirty := true }
    else s2
  match p.backgroundImage with
  | some (some _) => loadBackgroundImage s3
  | _ => s3

/-- The constructor: resolve defaults, size the composition canvas, acquire
the GL context and program, create buffers, then resize(width, height) (the
tail of setupWebGL) and create the background texture.  Animation-state
fields start at their field initializers. -/
def mkEngine (p : ConfigPatch) : EngineState :=
  let cfg := resolveConfig p
  let s0 : EngineState :=
    { config := cfg
      program := some ()
      audioAnalyzer := false
      animationId := none
      isDisposed := false
      positionBuffer := some ()
      texCoordBuffer := some ()
      backgroundTexture := some ()
      backgroundImageElement := none
      canvasWidth := 0
      canvasHeight := 0
      bgCanvasWidth := cfg.width
      bgCanvasHeight := cfg.height
      smoothedAudioLevel := 0
      backgroundDirty := true
      lastBackgroundConfig := none
      textureNeedsUpdate := true
      lastAvatarSize := 0
      thinkingAnimationTime := 0
      currentState := .speaking
      targetState := .speaking
      stateTransitionProgress := 1
      stateTransitionDuration := 500
      stateTransitionStartTime := 0 }
  resize cfg.width (some cfg.height) s0

/-- stop(): cancel the scheduled tick if pending. -/
def stop (s : EngineState) : EngineState :=
  { s with animationId := none }

/-- dispose(): set the disposed flag, stop the loop, release the analyzer,
all GPU objects and the in-flight image, zero the composition canvas. -/
def dispose (s : EngineState) : EngineState :=
  let s1 := stop { s with isDisposed := true }
  { s1 with
    audioAnalyzer := false
    program := none
    positionBuffer := none
    texCoordBuffer := none
    backgroundTexture := none
    backgroundImageElement := none
    bgCanvasWidth := 0
    bgCanvasHeight := 0 }

/-- The ease-in-out-cubic curve of the source easeInOutCubic. -/
def easeInOutCubic (t : ℚ) : ℚ :=
  if t < 1/2 then 4 * t * t * t else 1 - (-2 * t + 2)^3 / 2

/-- The raw progress Math.min(1, elapsed / duration) of
updateStateTransition. -/
def rawTransitionProgress (elapsed duration : ℚ) : ℚ :=
  min 1 (elapsed / duration)

/-- The value stored into stateTransitionProgress on a frame with the given
elapsed time: the eased raw progress. -/
def storedTransitionProgress (elapsed duration : ℚ) : ℚ :=
  easeInOutCubic (rawTransitionProgress elapsed duration)

/-- updateStateTransition, with Date.now() passed in as now: start a new
transition when the config state differs from the target; while the progress
is below 1, recompute it as the eased raw progress, mark the texture for
upload, and finish the transition when the eased progress reaches 1. -/
def updateStateTransition (now : ℚ) (s : EngineState) : EngineState :=
  let s1 :=
    if s.config.avatarState ≠ s.targetState then
      { s with
        currentState := s.targetState
        targetState := s.config.avatarState
        stateTransitionProgress := 0
        stateTransitionStartTime := now }
    else s
  if s1.stateTransitionProgress < 1 then
    let elapsed := now - s1.stateTransitionStartTime
    let p := easeInOutCubic (rawTransitionProgress elapsed s1.stateTransitionDuration)
    let s2 := { s1 with stateTransitionProgress := p, textureNeedsUpdate := true }
    if s2.stateTransitionProgress = 1 then { s2 with currentState := s2.targetState }
    else s2
  else s1

/-- The audio gating of drawAvatar: full sample when the target state is
speaking, sample scaled by (1 - progress) while fading out of speaking,
zero otherwise. -/
def effectiveAudioLevel (audioLevel : ℚ) (currentState targetState : AvatarState)
    (progress : ℚ) : ℚ :=
  let eff := audioLevel
  if targetState = .speaking then audioLevel
  else if currentState = .speaking ∧ progress < 1 then eff * (1 - progress)
  else 0

/-- One exponential-moving-average update of smoothedAudioLevel (drawAvatar):
smoothed + (effectiveLevel * sensitivity - smoothed) * smoothing. -/
def smoothStep (sensitivity smoothing smoothed effectiveLevel : ℚ) : ℚ :=
  smoothed + (effectiveLevel * sensitivity - smoothed) * smoothing

/-- The per-frame inputs that determine the effective audio sample. -/
structure AudioFrame where
  raw : ℚ
  currentState : AvatarState
  targetState : AvatarState
  progress : ℚ
deriving DecidableEq

/-- Iterate the smoother over a sequence of frames starting from a given
smoothed level. -/
def runSmoother (sensitivity smoothing : ℚ) (frames : List AudioFrame)
    (start : ℚ) : ℚ :=
  frames.foldl
    (fun sm f =>
      smoothStep sensitivity smoothing sm
        (effectiveAudioLevel f.raw f.currentState f.targetState f.progress))
    start

/-- The background redraw decision and its state updates (drawAvatar):
redraw exactly when the dirty flag is set, the signature changed, rotation is
enabled, or the config avatar state is thinking; a redraw clears the dirty
flag, stores the new signature and marks the texture for upload.  The Bool
result records whether drawBackground ran. -/
def bgRedrawStep (s : EngineState) : EngineState × Bool :=
  let sig := bgSignature s.config
  if s.backgroundDirty = true ∨ s.lastBackgroundConfig ≠ some sig ∨
      s.config.backgroundRotation = true ∨ s.config.avatarState = .thinking then
    ({ s with
        backgroundDirty := false
        lastBackgroundConfig := some sig
        textureNeedsUpdate := true }, true)
  else (s, false)

/-- Canvas-2D primitives emitted by the avatar draw routines, at the
granularity the claims need: the speaking avatar's soft radial-gradient
circle, and the thinking border batch (whose geometry involves Math.PI and
float modulus and is kept opaque). -/
inductive CanvasPrim
  | avatarCircle (cx cy size opacity : ℚ)
  | thinkingBorder
deriving DecidableEq

/-- drawSpeakingAvatar: expanded radius from the smoothed level, optional
fade opacity via the power curve, one gradient circle, and the
significant-change test gating the texture re-upload.  powCurve models the
real-valued Math.pow(x, 0.3). -/
def drawSpeakingAvatar (powCurve : ℚ → ℚ) (cx cy baseSize transitionOpacity : ℚ)
    (s : EngineState) : EngineState × List CanvasPrim :=
  let maxExpansionSize := baseSize * s.config.avatarExpansion
  let expandedSize := baseSize + s.smoothedAudioLevel * (maxExpansionSize - baseSize)
  let avatarOpacity :=
    if s.config.avatarFadeWithAudio then
      max 0 (min 1 (powCurve (s.smoothedAudioLevel * 8)))
    else 1
  let prim := CanvasPrim.avatarCircle cx cy expandedSize (avatarOpacity * transitionOpacity)
  let s1 :=
    if 1/2 < |expandedSize - s.lastAvatarSize| ∨ 1/100 < |avatarOpacity - 1| then
      { s with textureNeedsUpdate := true }
    else s
  ({ s1 with lastAvatarSize := expandedSize }, [prim])

/-- drawListeningAvatar: the source body draws nothing (no canvas calls at
all) and only marks the texture as needing an update. -/
def drawListeningAvatar (s : EngineState) : EngineState × List CanvasPrim :=
  ({ s with textureNeedsUpdate := true }, [])

/-- drawThinkingAvatar: draws the rotating border batch and always marks the
texture as needing an update. -/
def drawThinkingAvatar (s : EngineState) : EngineState × List CanvasPrim :=
  ({ s with textureNeedsUpdate := true }, [CanvasPrim.thinkingBorder])

/-- drawAvatarState: dispatch on the avatar state. -/
def drawAvatarState (powCurve : ℚ → ℚ) (cx cy baseSize : ℚ) (state : AvatarState)
    (opacity : ℚ) (s : EngineState) : EngineState × List CanvasPrim :=
  match state with
  | .speaking => drawSpeakingAvatar powCurve cx cy baseSize opacity s
  | .listening => drawListeningAvatar s
  | .thinking => drawThinkingAvatar s

/-- drawAvatar: the per-frame update pipeline on the composition canvas —
thinking clock advance, state-transition update, audio gating, EMA smoothing,
background redraw decision, then the state-blended avatar draw. -/
def drawAvatar (powCurve : ℚ → ℚ) (now audioLevel : ℚ) (s : EngineState) :
    EngineState × List CanvasPrim :=
  let width := s.bgCanvasWidth
  let height := s.bgCanvasHeight
  let s1 := { s with thinkingAnimationTime := s.thinkingAnimationTime + 16 }
  let s2 := updateStateTransition now s1
  let eff := effectiveAudioLevel audioLevel s2.currentState s2.targetState
      s2.stateTransitionProgress
  let s3 := { s2 with
    smoothedAudioLevel :=
      smoothStep s2.config.avatarSensitivity s2.config.avatarSmoothing
        s2.smoothedAudioLevel eff }
  let s4 := (bgRedrawStep s3).1
  let centerX := width / 2
  let centerY := height / 2
  let baseSize := s4.config.avatarSize
  if s4.stateTransitionProgress = 1 then
    drawAvatarState powCurve centerX centerY baseSize s4.targetState 1 s4
  else
    let (s5, prims1) :=
      if s4.currentState ≠ s4.targetState then
        drawAvatarState powCurve centerX centerY baseSize s4.currentState
          (1 - s4.stateTransitionProgress) s4
      else (s4, [])
    let (s6, prims2) :=
      drawAvatarState powCurve centerX centerY baseSize s5.targetState
        s5.stateTransitionProgress s5
    (s6, prims1 ++ prims2)

/-- The GPU-side effects of one render tick, in issue order. -/
inductive RenderEffect
  | uploadTexture
  | clearSurface
  | useProgram
  | setUniforms
  | bindTexture
  | bindBuffers
  | drawQuad
  | scheduleNext
deriving DecidableEq

/-- The render tick: return immediately when the program is gone or the
engine is disposed; otherwise pull the audio sample, run drawAvatar, upload
the composition canvas when flagged, issue the full-screen draw, and
schedule the next tick when not disposed. -/
def render (powCurve : ℚ → ℚ) (now sample : ℚ) (s : EngineState) :
    EngineState × List RenderEffect :=
  if s.program = none ∨ s.isDisposed = true then (s, [])
  else
    let level := if s.audioAnalyzer then sample else 0
    let s1 := (drawAvatar powCurve now level s).1
    let (s2, uploadFx) :=
      if s1.textureNeedsUpdate = true then
        ({ s1 with textureNeedsUpdate := false }, [RenderEffect.uploadTexture])
      else (s1, [])
    let drawFx := [RenderEffect.clearSurface, RenderEffect.useProgram,
      RenderEffect.setUniforms, RenderEffect.bindTexture,
      RenderEffect.bindBuffers, RenderEffect.drawQuad]
    if s2.isDisposed = false then
      ({ s2 with animationId := some () }, uploadFx ++ drawFx ++ [RenderEffect.scheduleNext])
    else (s2, uploadFx ++ drawFx)

/-! ### Helper lemmas -/

/-- The resolved avatar shape is one of the two union members. -/
theorem avatarShape_cases (sh : AvatarShape) : sh = .circle ∨ sh = .square := by
  cases sh
  · exact Or.inr rfl
  · exact Or.inl rfl

/-- resize always forces a square: every stored and canvas dimension becomes
the requested width (the resolved avatarShape is always circle or square). -/
theorem resize_forces_square (w : ℚ) (h : Option ℚ) (s : EngineState) :
    (resize w h s).config.width = w ∧ (resize w h s).config.height = w ∧
    (resize w h s).canvasWidth = w ∧ (resize w h s).canvasHeight = w ∧
    (resize w h s).bgCanvasWidth = w ∧ (resize w h s).bgCanvasHeight = w := by
  unfold resize
  rw [if_pos (avatarShape_cases s.config.avatarShape)]
  exact ⟨rfl, rfl, rfl, rfl, rfl, rfl⟩

/-- resize rewrites only the dimension fields of the stored config. -/
theorem resize_config (w : ℚ) (h : Option ℚ) (s : EngineState) :
    (resize w h s).config = { s.config with width := w, height := w } := by
  unfold resize
  rw [if_pos (avatarShape_cases s.config.avatarShape)]

/-- loadBackgroundImage only touches the image element handle. -/
theorem loadBackgroundImage_preserves (s : EngineState) :
    (loadBackgroundImage s).config = s.config ∧
    (loadBackgroundImage s).canvasWidth = s.canvasWidth ∧
    (loadBackgroundImage s).canvasHeight = s.canvasHeight ∧
    (loadBackgroundImage s).bgCanvasWidth = s.bgCanvasWidth ∧
    (loadBackgroundImage s).bgCanvasHeight = s.bgCanvasHeight := by
  unfold loadBackgroundImage
  rcases s.config.backgroundImage with _ | u
  · exact ⟨rfl, rfl, rfl, rfl, rfl⟩
  · by_cases hu : u = "" <;> simp [hu]

/-- The stored config after updateConfig is the merged config, with the
height forced back to the width when a dimension key triggered resize. -/
theorem updateConfig_config (p : ConfigPatch) (s : EngineState) :
    (updateConfig p s).config =
      if p.width.isSome ∨ p.height.isSome then
        { mergeConfig s.config p with height := (mergeConfig s.config p).width }
      else mergeConfig s.config p := by
  unfold updateConfig
  rcases hbi : p.backgroundImage with _ | v
  · simp only [hbi]
    split_ifs <;>
      first
        | rfl
        | (rw [resize_config]; try rfl)
  · rcases v with _ | u <;> simp only [hbi] <;>
      [skip;
       rw [(loadBackgroundImage_preserves _).1]] <;>
      split_ifs <;>
      first
        | rfl
        | (rw [resize_config]; try rfl)

/-- After an updateConfig carrying a dimension key, every canvas dimension
equals the merged width. -/
theorem updateConfig_dims (p : ConfigPatch) (s : EngineState)
    (hp : p.width.isSome ∨ p.height.isSome) :
    (updateConfig p s).canvasWidth = (mergeConfig s.config p).width ∧
    (updateConfig p s).canvasHeight = (mergeConfig s.config p).width ∧
    (updateConfig p s).bgCanvasWidth = (mergeConfig s.config p).width ∧
    (updateConfig p s).bgCanvasHeight = (mergeConfig s.config p).width := by
  unfold updateConfig
  rcases hbi : p.backgroundImage with _ | v
  · simp only [hbi]
    split_ifs <;>
      (obtain ⟨-, -, d1, d2, d3, d4⟩ := resize_forces_square
        (mergeConfig s.config p).width (some (mergeConfig s.config p).height) _;
       exact ⟨d1, d2, d3, d4⟩)
  · rcases v with _ | u <;> simp only [hbi] <;>
      [skip;
       (obtain ⟨-, e1, e2, e3, e4⟩ := loadBackgroundImage_preserves _;
        rw [e1, e2, e3, e4])] <;>
      split_ifs <;>
      (obtain ⟨-, -, d1, d2, d3, d4⟩ := resize_forces_square
        (mergeConfig s.config p).width (some (mergeConfig s.config p).height) _;
       exact ⟨d1, d2, d3, d4⟩)

/-! ### Claim theorems -/

/-- Claim C1: once dispose() has run (or the program handle is null), a tick
that fires performs zero GPU calls and schedules no further tick — render
returns immediately with no effects. -/
theorem c1_no_ticks_after_dispose (powCurve : ℚ → ℚ) (now sample : ℚ) (s : EngineState) :
    render powCurve now sample (dispose s) = (dispose s, []) ∧
    ∀ s2 : EngineState, s2.isDisposed = true ∨ s2.program = none →
      render powCurve now sample s2 = (s2, []) := by
  constructor
  · unfold render
    have hp : (dispose s).program = none := rfl
    rw [if_pos (Or.inl hp)]
  · intro s2 h
    unfold render
    rcases h with h | h
    · rw [if_pos (Or.inr h)]
    · rw [if_pos (Or.inl h)]

/-- Witness for C1 at a concrete disposed engine. -/
theorem c1_no_ticks_after_dispose_witness :
    render (fun x => x) 0 0 (dispose (mkEngine emptyPatch)) =
      (dispose (mkEngine emptyPatch), []) :=
  (c1_no_ticks_after_dispose (fun x => x) 0 0 (mkEngine emptyPatch)).2
    (dispose (mkEngine emptyPatch)) (Or.inl rfl)

/-- Claim C6: the effective audio sample is the full raw sample when the
target state is speaking, the raw sample scaled by (1 - progress) when
fading out of speaking, and zero otherwise. -/
theorem c6_audio_gating (raw p : ℚ) (cur tgt : AvatarState) :
    (tgt = .speaking → effectiveAudioLevel raw cur tgt p = raw) ∧
    (tgt ≠ .speaking → cur = .speaking → p < 1 →
      effectiveAudioLevel raw cur tgt p = raw * (1 - p)) ∧
    (tgt ≠ .speaking → (cur ≠ .speaking ∨ 1 ≤ p) →
      effectiveAudioLevel raw cur tgt p = 0) := by
  refine ⟨fun h => by simp [effectiveAudioLevel, h],
    fun h hc hp => by simp [effectiveAudioLevel, h, hc, hp],
    fun h hcp => ?_⟩
  have hnot : ¬ (cur = .speaking ∧ p < 1) := by
    rcases hcp with h1 | h1
    · exact fun hc => h1 hc.1
    · exact fun hc => absurd hc.2 (not_lt.mpr h1)
  simp [effectiveAudioLevel, h, hnot]

/-- Witness for C6 on the fade-out-of-speaking branch. -/
theorem c6_audio_gating_witness :
    effectiveAudioLevel 1 .speaking .listening (1/2) = 1 * (1 - 1/2) :=
  (c6_audio_gating 1 (1/2) .speaking .listening).2.1 (by decide) rfl (by norm_num)

/-- Claim C8 (code evaluated at the failing situation): in the listening
state the draw routine emits no canvas primitive at all — in particular no
pulsing inner glow — and only marks the texture as needing re-upload.  This
contradicts the documented listeningPulseBase/Amplitude/Speed behavior. -/
theorem c8_listening_draws_nothing (s : EngineState) :
    drawListeningAvatar s = ({ s with textureNeedsUpdate := true }, []) := rfl

/-- Counterexample to claim C2 as stated: an updateConfig gradient patch
whose edgeColor is the empty string does not store that value — the JS
logical-or fallback keeps the prior edgeColor. -/
theorem c2_gradient_merge_counterexample :
    (updateConfig { backgroundGradient := some { edgeColor := some "" } }
        (mkEngine emptyPatch)).config.backgroundGradient.edgeColor ≠ "" ∧
    (updateConfig { backgroundGradient := some { edgeColor := some "" } }
        (mkEngine emptyPatch)).config.backgroundGradient.edgeColor = "#1a1a2e" := by
  exact ⟨by decide, by decide⟩

/-- Claim C2 as amended: updateConfig with only avatarColor changes exactly
that stored field; a gradient patch carrying a non-empty edgeColor stores it
while the prior centerColor and angle (and every other config field) are
retained.  (An empty-string edgeColor instead falls back to the prior value,
per the counterexample.) -/
theorem c2_config_merge_correctness :
    (∀ (s : EngineState) (x : String),
      (updateConfig { avatarColor := some x } s).config =
        { s.config with avatarColor := x }) ∧
    (∀ (s : EngineState) (y : String), y ≠ "" →
      (updateConfig { backgroundGradient := some { edgeColor := some y } } s).config =
        { s.config with backgroundGradient :=
            { s.config.backgroundGradient with edgeColor := y } }) := by
  constructor
  · intro s x
    rfl
  · intro s y hy
    have h1 : (updateConfig { backgroundGradient := some { edgeColor := some y } } s).config
        = mergeConfig s.config { backgroundGradient := some { edgeColor := some y } } := rfl
    rw [h1]
    unfold mergeConfig
    simp [jsOrStr, hy]

/-- Witness for C2 at a concrete engine and a non-empty color. -/
theorem c2_config_merge_correctness_witness :
    (updateConfig { backgroundGradient := some { edgeColor := some "#ff0000" } }
        (mkEngine emptyPatch)).config =
      { (mkEngine emptyPatch).config with backgroundGradient :=
          { (mkEngine emptyPatch).config.backgroundGradient with edgeColor := "#ff0000" } } :=
  c2_config_merge_correctness.2 (mkEngine emptyPatch) "#ff0000" (by decide)

/-- Claim C4: with an explicit avatarShape the constructor stores height =
width and sizes both canvases square; resize on an engine whose shape is
circle or square forces all dimensions to the width, and so does the resize
triggered by an updateConfig patch carrying width or height. -/
theorem c4_shape_forces_square :
    (∀ (p : ConfigPatch) (sh : AvatarShape), p.avatarShape = some sh →
      ((mkEngine p).config.height = (mkEngine p).config.width ∧
       (mkEngine p).canvasHeight = (mkEngine p).canvasWidth ∧
       (mkEngine p).bgCanvasHeight = (mkEngine p).bgCanvasWidth)) ∧
    (∀ (s : EngineState) (w : ℚ) (h : Option ℚ),
      s.config.avatarShape = .circle ∨ s.config.avatarShape = .square →
      ((resize w h s).config.height = (resize w h s).config.width ∧
       (resize w h s).canvasHeight = (resize w h s).canvasWidth ∧
       (resize w h s).bgCanvasHeight = (resize w h s).bgCanvasWidth)) ∧
    (∀ (s : EngineState) (p : ConfigPatch), p.width.isSome ∨ p.height.isSome →
      ((updateConfig p s).config.height = (updateConfig p s).config.width ∧
       (updateConfig p s).canvasHeight = (updateConfig p s).canvasWidth ∧
       (updateConfig p s).bgCanvasHeight = (updateConfig p s).bgCanvasWidth)) := by
  refine ⟨?_, ?_, ?_⟩
  · intro p sh hp
    unfold mkEngine
    obtain ⟨h1, h2, h3, h4, h5, h6⟩ := resize_forces_square
      (resolveConfig p).width (some (resolveConfig p).height) _
    exact ⟨by rw [h1, h2], by rw [h3, h4], by rw [h5, h6]⟩
  · intro s w h _
    obtain ⟨h1, h2, h3, h4, h5, h6⟩ := resize_forces_square w h s
    exact ⟨by rw [h1, h2], by rw [h3, h4], by rw [h5, h6]⟩
  · intro s p hp
    obtain ⟨d1, d2, d3, d4⟩ := updateConfig_dims p s hp
    refine ⟨?_, by rw [d1, d2], by rw [d3, d4]⟩
    rw [updateConfig_config, if_pos hp]

/-- Witness for C4 at a concrete circle-shaped construction with distinct
width and height. -/
theorem c4_shape_forces_square_witness :
    (mkEngine { width := some 800, height := some 600, avatarShape := some AvatarShape.circle }).config.height
      = (mkEngine { width := some 800, height := some 600, avatarShape := some AvatarShape.circle }).config.width :=
  (c4_shape_forces_square.1
    { width := some 800, height := some 600, avatarShape := some AvatarShape.circle }
    AvatarShape.circle rfl).1

/-- Counterexample to claim C9 as stated: after construction with defaults
(rotation on, speed 10), updateConfig({backgroundRotation: false}) stores
rotation = false but keeps speed = 10, violating the claimed invariant. -/
theorem c9_rotation_speed_counterexample :
    (updateConfig { backgroundRotation := some false }
        (mkEngine emptyPatch)).config.backgroundRotation = false ∧
    (updateConfig { backgroundRotation := some false }
        (mkEngine emptyPatch)).config.backgroundRotationSpeed = 10 := by
  exact ⟨by decide, by decide⟩

/-- Claim C9 as amended: the rotation-speed forcing holds at construction
(a resolved config with rotation disabled always has speed 0), but
updateConfig merges the speed verbatim from the patch or the prior config
and never re-forces it, so the invariant is not preserved by updates. -/
theorem c9_rotation_speed_invariant :
    (∀ p : ConfigPatch, (resolveConfig p).backgroundRotation = false →
      (resolveConfig p).backgroundRotationSpeed = 0) ∧
    (∀ (s : EngineState) (p : ConfigPatch),
      (updateConfig p s).config.backgroundRotationSpeed =
        p.backgroundRotationSpeed.getD s.config.backgroundRotationSpeed) := by
  constructor
  · intro p h
    have hrot : p.backgroundRotation.getD true = false := h
    have hsf : p.backgroundRotation = some false := by
      rcases hb : p.backgroundRotation with _ | b
      · rw [hb] at hrot
        simp at hrot
      · rw [hb] at hrot
        simp only [Option.getD_some] at hrot
        rw [hrot]
    show (if p.backgroundRotation = some false then (0:ℚ)
      else p.backgroundRotationSpeed.getD 10) = 0
    rw [if_pos hsf]
  · intro s p
    rw [updateConfig_config]
    split_ifs <;> rfl

/-- Witness for C9 at a concrete construction with rotation disabled. -/
theorem c9_rotation_speed_invariant_witness :
    (resolveConfig { backgroundRotation := some false }).backgroundRotationSpeed = 0 :=
  c9_rotation_speed_invariant.1 { backgroundRotation := some false } (by decide)

/-- Counterexample to claim C10 as stated: backgroundRotationSpeed is not
restricted to angle and backgroundRotation in preserving falsy inputs — a
supplied 0 is stored as 0, not replaced by the default 10 (it is defaulted
with nullish coalescing, guarded by the rotation flag). -/
theorem c10_falsy_defaults_counterexample :
    (resolveConfig { backgroundRotationSpeed := some 0 }).backgroundRotationSpeed = 0 ∧
    (resolveConfig { backgroundRotationSpeed := some 0 }).backgroundRotationSpeed ≠ 10 := by
  exact ⟨by decide, by decide⟩

/-- Claim C10 as amended: the logical-or defaulted numeric fields replace a
supplied falsy 0 by their documented defaults (glassOpacity 0.95, avatarSize
80, blurAmount 3.0, avatarSensitivity 1.0, backgroundScale 1.0), while the
nullish-coalescing-defaulted fields — backgroundGradient.angle,
backgroundRotation AND backgroundRotationSpeed — preserve falsy inputs. -/
theorem c10_falsy_defaults :
    (∀ p : ConfigPatch, p.glassOpacity = some 0 →
      (resolveConfig p).glassOpacity = 95/100) ∧
    (∀ p : ConfigPatch, p.avatarSize = some 0 → (resolveConfig p).avatarSize = 80) ∧
    (∀ p : ConfigPatch, p.blurAmount = some 0 → (resolveConfig p).blurAmount = 3) ∧
    (∀ p : ConfigPatch, p.avatarSensitivity = some 0 →
      (resolveConfig p).avatarSensitivity = 1) ∧
    (∀ p : ConfigPatch, p.backgroundScale = some 0 →
      (resolveConfig p).backgroundScale = 1) ∧
    (∀ (p : ConfigPatch) (g : GradientPatch), p.backgroundGradient = some g →
      g.angle = some 0 → (resolveConfig p).backgroundGradient.angle = 0) ∧
    (∀ p : ConfigPatch, p.backgroundRotation = some false →
      (resolveConfig p).backgroundRotation = false) ∧
    (∀ p : ConfigPatch, p.backgroundRotationSpeed = some 0 →
      (resolveConfig p).backgroundRotationSpeed = 0) := by
  refine ⟨?_, ?_, ?_, ?_, ?_, ?_, ?_, ?_⟩
  · intro p h
    show jsOrNum p.glassOpacity (95/100) = 95/100
    rw [h]
    simp [jsOrNum]
  · intro p h
    show jsOrNum p.avatarSize 80 = 80
    rw [h]
    simp [jsOrNum]
  · intro p h
    show jsOrNum p.blurAmount 3 = 3
    rw [h]
    simp [jsOrNum]
  · intro p h
    show jsOrNum p.avatarSensitivity 1 = 1
    rw [h]
    simp [jsOrNum]
  · intro p h
    show jsOrNum p.backgroundScale 1 = 1
    rw [h]
    simp [jsOrNum]
  · intro p g hp hg
    show (p.backgroundGradient.bind (·.angle)).getD 45 = 0
    rw [hp]
    simp [Option.bind, hg]
  · intro p h
    show p.backgroundRotation.getD true = false
    rw [h]
    rfl
  · intro p h
    show (if p.backgroundRotation = some false then (0:ℚ)
      else p.backgroundRotationSpeed.getD 10) = 0
    split_ifs
    · rfl
    · rw [h]
      rfl

/-- Witness for C10 at a concrete zero glassOpacity. -/
theorem c10_falsy_defaults_witness :
    (resolveConfig { glassOpacity := some 0 }).glassOpacity = 95/100 :=
  c10_falsy_defaults.1 { glassOpacity := some 0 } rfl

/-- The gated effective audio sample stays in [0, 1] for raw samples in
[0, 1] and transition progress in [0, 1]. -/
theorem effectiveAudioLevel_bounds (cur tgt : AvatarState) {raw p : ℚ}
    (h0 : 0 ≤ raw) (h1 : raw ≤ 1) (hp0 : 0 ≤ p) (hp1 : p ≤ 1) :
    0 ≤ effectiveAudioLevel raw cur tgt p ∧ effectiveAudioLevel raw cur tgt p ≤ 1 := by
  unfold effectiveAudioLevel
  split_ifs
  · exact ⟨h0, h1⟩
  · constructor
    · show 0 ≤ raw * (1 - p)
      exact mul_nonneg h0 (by linarith)
    · show raw * (1 - p) ≤ 1
      nlinarith
  · norm_num

/-- One EMA step is a convex combination of the previous level and a target
in [0, sensitivity], so it preserves the [0, sensitivity] band. -/
theorem smoothStep_bounds {sens α sm eff : ℚ} (hsens : 0 ≤ sens) (hα0 : 0 < α)
    (hα1 : α ≤ 1) (hlo : 0 ≤ sm) (hhi : sm ≤ sens) (he0 : 0 ≤ eff) (he1 : eff ≤ 1) :
    0 ≤ smoothStep sens α sm eff ∧ smoothStep sens α sm eff ≤ sens := by
  unfold smoothStep
  constructor
  · nlinarith [mul_nonneg (mul_nonneg he0 hsens) hα0.le,
      mul_nonneg hlo (sub_nonneg.mpr hα1)]
  · nlinarith [mul_nonneg (sub_nonneg.mpr hhi) (sub_nonneg.mpr hα1),
      mul_nonneg (mul_nonneg hsens (sub_nonneg.mpr he1)) hα0.le]

/-- Iterating the smoother from any level inside the band keeps it inside. -/
theorem runSmoother_bounds (sens α : ℚ) (hsens : 0 ≤ sens) (hα0 : 0 < α) (hα1 : α ≤ 1) :
    ∀ (frames : List AudioFrame) (start : ℚ), 0 ≤ start → start ≤ sens →
      (∀ f ∈ frames, 0 ≤ f.raw ∧ f.raw ≤ 1 ∧ 0 ≤ f.progress ∧ f.progress ≤ 1) →
      0 ≤ runSmoother sens α frames start ∧ runSmoother sens α frames start ≤ sens := by
  intro frames
  induction frames with
  | nil =>
    intro start hlo hhi _
    exact ⟨hlo, hhi⟩
  | cons f fs ih =>
    intro start hlo hhi hf
    have hb := hf f (List.mem_cons_self f fs)
    have heff := effectiveAudioLevel_bounds f.currentState f.targetState
      hb.1 hb.2.1 hb.2.2.1 hb.2.2.2
    have hstep := smoothStep_bounds hsens hα0 hα1 hlo hhi heff.1 heff.2
    simpa [runSmoother] using
      ih _ hstep.1 hstep.2 (fun g hg => hf g (List.mem_cons_of_mem f hg))

/-- Claim C3: with smoothing in (0, 1], sensitivity ≥ 0 and raw samples and
progress values in [0, 1], the smoothed audio level driven from 0 by the
per-frame EMA update over the gated samples stays within [0, sensitivity]
after every frame. -/
theorem c3_audio_level_bounds (sens α : ℚ) (frames : List AudioFrame)
    (hsens : 0 ≤ sens) (hα0 : 0 < α) (hα1 : α ≤ 1)
    (hframes : ∀ f ∈ frames, 0 ≤ f.raw ∧ f.raw ≤ 1 ∧ 0 ≤ f.progress ∧ f.progress ≤ 1) :
    0 ≤ runSmoother sens α frames 0 ∧ runSmoother sens α frames 0 ≤ sens :=
  runSmoother_bounds sens α hsens hα0 hα1 frames 0 le_rfl hsens hframes

/-- Witness for C3 on a one-frame speaking sequence with full-scale input. -/
theorem c3_audio_level_bounds_witness :
    0 ≤ runSmoother 1 (1/4) [⟨1, .speaking, .speaking, 0⟩] 0 ∧
    runSmoother 1 (1/4) [⟨1, .speaking, .speaking, 0⟩] 0 ≤ 1 :=
  c3_audio_level_bounds 1 (1/4) [⟨1, .speaking, .speaking, 0⟩]
    (by norm_num) (by norm_num) (by norm_num)
    (by
      intro f hf
      simp only [List.mem_singleton] at hf
      subst hf
      norm_num)

/-- Claim C5: the background is redrawn exactly when the dirty flag is set,
the signature over the background-affecting fields plus avatar state
changed, rotation is enabled, or the avatar state is thinking; a redraw
clears the dirty flag, stores the signature and marks the texture for
re-upload; hence with an unchanged static config (color background, no
rotation, speaking) a dirty state redraws on the first frame only. -/
theorem c5_background_redraw_decision :
    (∀ s : EngineState, (bgRedrawStep s).2 = true ↔
      (s.backgroundDirty = true ∨ s.lastBackgroundConfig ≠ some (bgSignature s.config) ∨
       s.config.backgroundRotation = true ∨ s.config.avatarState = .thinking)) ∧
    (∀ s : EngineState, (bgRedrawStep s).2 = true →
      ((bgRedrawStep s).1.backgroundDirty = false ∧
       (bgRedrawStep s).1.lastBackgroundConfig = some (bgSignature s.config) ∧
       (bgRedrawStep s).1.textureNeedsUpdate = true)) ∧
    (∀ s : EngineState, s.config.backgroundType = .color →
      s.config.backgroundRotation = false → s.config.avatarState = .speaking →
      s.backgroundDirty = true →
      ((bgRedrawStep s).2 = true ∧ (bgRedrawStep (bgRedrawStep s).1).2 = false)) := by
  refine ⟨?_, ?_, ?_⟩
  · intro s
    unfold bgRedrawStep
    dsimp only
    split_ifs with h
    · simpa using h
    · simpa using h
  · intro s hred
    unfold bgRedrawStep at hred ⊢
    dsimp only at hred ⊢
    split_ifs at hred ⊢ with h
    exact ⟨rfl, rfl, rfl⟩
  · intro s htype hrot hstate hdirty
    have hfirst : (bgRedrawStep s).2 = true := by
      unfold bgRedrawStep
      dsimp only
      rw [if_pos (Or.inl hdirty)]
    have hdirty2 : (bgRedrawStep s).1.backgroundDirty = false := by
      unfold bgRedrawStep
      dsimp only
      rw [if_pos (Or.inl hdirty)]
    have hlast2 : (bgRedrawStep s).1.lastBackgroundConfig = some (bgSignature s.config) := by
      unfold bgRedrawStep
      dsimp only
      rw [if_pos (Or.inl hdirty)]
    have hcfg2 : (bgRedrawStep s).1.config = s.config := by
      unfold bgRedrawStep
      dsimp only
      rw [if_pos (Or.inl hdirty)]
    refine ⟨hfirst, ?_⟩
    set t := (bgRedrawStep s).1 with ht
    unfold bgRedrawStep
    dsimp only
    rw [if_neg]
    push_neg
    refine ⟨?_, ?_, ?_, ?_⟩
    · rw [hdirty2]
      simp
    · rw [hcfg2, hlast2]
    · rw [hcfg2, hrot]
      simp
    · rw [hcfg2, hstate]
      simp

/-- Witness for C5 at a concrete engine with a static color background. -/
theorem c5_background_redraw_decision_witness :
    (bgRedrawStep (mkEngine { backgroundRotation := some false })).2 = true ∧
    (bgRedrawStep (bgRedrawStep (mkEngine { backgroundRotation := some false })).1).2 = false :=
  c5_background_redraw_decision.2.2 (mkEngine { backgroundRotation := some false })
    rfl rfl rfl rfl

/-- The ease-in-out-cubic curve is monotone non-decreasing on [0, 1]. -/
theorem easeInOutCubic_mono {t u : ℚ} (ht : 0 ≤ t) (htu : t ≤ u) (hu : u ≤ 1) :
    easeInOutCubic t ≤ easeInOutCubic u := by
  have hu0 : 0 ≤ u := le_trans ht htu
  unfold easeInOutCubic
  rcases lt_or_le t (1/2) with h1 | h1 <;> rcases lt_or_le u (1/2) with h2 | h2
  · rw [if_pos h1, if_pos h2]
    nlinarith [mul_nonneg (sub_nonneg.mpr htu)
      (add_nonneg (add_nonneg (mul_nonneg hu0 hu0) (mul_nonneg hu0 ht)) (mul_nonneg ht ht))]
  · rw [if_pos h1, if_neg (not_lt.mpr h2)]
    have k1 : 0 ≤ (1/2 - t) * (t*t + t/2 + 1/4) := by
      apply mul_nonneg (by linarith)
      nlinarith [mul_nonneg ht ht]
    have k2 : 0 ≤ (2*u - 1) * ((2-2*u)*(2-2*u) + (2-2*u) + 1) := by
      apply mul_nonneg (by linarith)
      nlinarith [mul_nonneg (by linarith : (0:ℚ) ≤ 2-2*u) (by linarith : (0:ℚ) ≤ 2-2*u)]
    nlinarith [k1, k2]
  · exact absurd (lt_of_le_of_lt htu h2) (not_lt.mpr h1)
  · rw [if_neg (not_lt.mpr h1), if_neg (not_lt.mpr h2)]
    have ha : (0:ℚ) ≤ 2 - 2*u := by linarith
    have hb : 2 - 2*u ≤ 2 - 2*t := by linarith
    have hb0 : (0:ℚ) ≤ 2 - 2*t := le_trans ha hb
    nlinarith [mul_nonneg (sub_nonneg.mpr hb)
      (add_nonneg (add_nonneg (mul_nonneg hb0 hb0) (mul_nonneg hb0 ha)) (mul_nonneg ha ha))]

/-- Claim C7: while no new transition starts, updateStateTransition stores
exactly the eased raw progress of the elapsed time; that stored value is
non-decreasing in elapsed time, reaches and stays at 1 once the duration has
elapsed; the raw progress is non-decreasing, the easing curve is monotone on
[0, 1], and the eased value is 0 at progress 0 and 1 at progress 1. -/
theorem c7_transition_monotonicity :
    (∀ (s : EngineState) (now : ℚ), s.config.avatarState = s.targetState →
      s.stateTransitionProgress < 1 →
      (updateStateTransition now s).stateTransitionProgress =
        storedTransitionProgress (now - s.stateTransitionStartTime)
          s.stateTransitionDuration) ∧
    (∀ d e1 e2 : ℚ, 0 < d → 0 ≤ e1 → e1 ≤ e2 →
      storedTransitionProgress e1 d ≤ storedTransitionProgress e2 d) ∧
    (∀ d e : ℚ, 0 < d → d ≤ e → storedTransitionProgress e d = 1) ∧
    (∀ d e1 e2 : ℚ, 0 < d → e1 ≤ e2 →
      rawTransitionProgress e1 d ≤ rawTransitionProgress e2 d) ∧
    (∀ t u : ℚ, 0 ≤ t → t ≤ u → u ≤ 1 → easeInOutCubic t ≤ easeInOutCubic u) ∧
    easeInOutCubic 0 = 0 ∧ easeInOutCubic 1 = 1 := by
  refine ⟨?_, ?_, ?_, ?_, fun t u ht htu hu => easeInOutCubic_mono ht htu hu,
    by norm_num [easeInOutCubic], by norm_num [easeInOutCubic]⟩
  · intro s now hcfg hlt
    unfold updateStateTransition
    rw [if_neg (show ¬ s.config.avatarState ≠ s.targetState from fun h => h hcfg),
      if_pos hlt]
    unfold storedTransitionProgress
    dsimp only
    split_ifs <;> rfl
  · intro d e1 e2 hd he1 he12
    unfold storedTransitionProgress rawTransitionProgress
    apply easeInOutCubic_mono
    · exact le_min (by norm_num) (div_nonneg he1 hd.le)
    · exact min_le_min le_rfl ((div_le_div_iff_of_pos_right hd).mpr he12)
    · exact min_le_left _ _
  · intro d e hd hde
    unfold storedTransitionProgress rawTransitionProgress
    rw [min_eq_left ((one_le_div hd).mpr hde)]
    norm_num [easeInOutCubic]
  · intro d e1 e2 hd he12
    unfold rawTransitionProgress
    exact min_le_min le_rfl ((div_le_div_iff_of_pos_right hd).mpr he12)

/-- Witness for C7: the stored progress at elapsed 0 is below the one at
elapsed 250 for the fixed 500 ms duration. -/
theorem c7_transition_monotonicity_witness :
    storedTransitionProgress 0 500 ≤ storedTransitionProgress 250 500 :=
  c7_transition_monotonicity.2.1 500 0 250 (by norm_num) le_rfl (by norm_num)

end Glasatar
